import Mathlib

/-!
Shallow embedding of the `sol-token-scale-ui-proxy` Solana program
(`src/state.rs`, `src/error.rs`, `src/token_2022_helpers.rs`,
`src/processor.rs`) and verification of the specification claims.

Conventions of the embedding:
* A byte is a `Nat` (values produced by the code are `< 256`).
* A `Pubkey` is a list of 32 bytes (`{ l : List Nat // l.length = 32 }`).
* An `f64` is its IEEE-754 bit pattern (`Fin (2 ^ 64)`); sign / exponent /
  fraction fields and the classification predicates (`is_normal`,
  `is_sign_positive`, ...) are computed from the bits exactly as IEEE-754
  and the Rust standard library define them.
* An `i64` is an `Int`; `to_le_bytes` encodes its two's complement.
* `Pubkey::find_program_address` is a host primitive (SHA-256 based);
  it is passed to each processor as an explicit function parameter
  `fpa : DeriveFn`, as is `Rent::get().minimum_balance` (`rentMin`).
* Fallible Rust code becomes `Except ProgramError _`; the side effects of
  a successful handler (the CPI instructions it issues via `invoke_signed`
  and the bytes it writes to the state account) are returned in the `ok`
  value.
-/

/-- Little-endian byte encoding of a natural number into `w` bytes
(`u64::to_le_bytes` / the byte view of `f64::to_le_bytes`). -/
def leBytes (n w : Nat) : List Nat :=
  (List.range w).map fun i => n / 256 ^ i % 256

/-- Two's-complement little-endian encoding of an `i64`
(`i64::to_le_bytes`). -/
def i64ToLeBytes (t : Int) : List Nat :=
  leBytes (t % (18446744073709551616 : Int)).toNat 8

/-- A 32-byte identity (`solana_program::pubkey::Pubkey`). -/
abbrev Pubkey := { l : List Nat // l.length = 32 }

/-- The `Pubkey::default()`: the all-zero identity. -/
def Pubkey.default : Pubkey := ⟨List.replicate 32 0, by simp⟩

/-- An IEEE-754 binary64 value, represented by its 64-bit pattern. -/
structure F64 where
  bits : Nat
  isLt : bits < 2 ^ 64
deriving DecidableEq

namespace F64

/-- The sign bit (bit 63). -/
def signBit (x : F64) : Nat := x.bits / 2 ^ 63

/-- The 11-bit biased exponent field (bits 52..62). -/
def expField (x : F64) : Nat := x.bits / 2 ^ 52 % 2 ^ 11

/-- The 52-bit fraction field (bits 0..51). -/
def fracField (x : F64) : Nat := x.bits % 2 ^ 52

/-- The `f64::is_sign_positive`: the sign bit is clear (also true for +NaN
and +0.0). -/
def is_sign_positive (x : F64) : Bool := x.signBit == 0

/-- The `f64::is_normal`: neither zero, subnormal, infinite nor NaN, i.e. the
biased exponent field is in `[1, 2046]`. -/
def is_normal (x : F64) : Bool := 1 ≤ x.expField && x.expField ≤ 2046

/-- NaN: exponent field all ones, nonzero fraction. -/
def isNan (x : F64) : Bool := x.expField == 2047 && !(x.fracField == 0)

/-- Positive or negative infinity: exponent field all ones, zero fraction. -/
def isInfinite (x : F64) : Bool := x.expField == 2047 && x.fracField == 0

/-- Positive or negative zero: exponent field and fraction both zero. -/
def isZero (x : F64) : Bool := x.expField == 0 && x.fracField == 0

/-- Subnormal: zero exponent field, nonzero fraction. -/
def isSubnormal (x : F64) : Bool := x.expField == 0 && !(x.fracField == 0)

/-- The `f64::is_finite`: the exponent field is not all ones. -/
def isFinite (x : F64) : Bool := !(x.expField == 2047)

/-- The `f64::to_le_bytes`: the 8 bytes of the bit pattern, little-endian. -/
def to_le_bytes (x : F64) : List Nat := leBytes x.bits 8

end F64

/-- ASCII bytes of a string literal (the bytes of a Rust `b"..."`). -/
def asciiBytes (s : String) : List Nat := s.data.map Char.toNat

/-- The `src/state.rs`: the persisted program state (`ProxyState`). -/
structure ProxyState where
  initialized : Bool
  authority : Pubkey
  token_mint : Pubkey
  bump : Nat
deriving DecidableEq

namespace ProxyState

/-- The `ProxyState::LEN = 1 + 32 + 32 + 1`. -/
def LEN : Nat := 1 + 32 + 32 + 1

/-- The `ProxyState::AUTHORITY_SEED = b"proxy_authority"`. -/
def AUTHORITY_SEED : List Nat := asciiBytes "proxy_authority"

/-- The `ProxyState::STATE_SEED = b"state"`. -/
def STATE_SEED : List Nat := asciiBytes "state"

/-- Borsh serialization of `ProxyState`: 1 byte bool, 32 bytes authority,
32 bytes mint, 1 byte bump. -/
def serialize (s : ProxyState) : List Nat :=
  (if s.initialized then [1] else [0]) ++ s.authority.val ++ s.token_mint.val ++ [s.bump]

/-- The `ProxyState::try_from_slice`: borsh deserialization requiring the whole
buffer to be consumed (66 bytes exactly, first byte 0 or 1). -/
def try_from_slice (data : List Nat) : Option ProxyState :=
  match data with
  | b :: rest =>
    if h : rest.length = 65 then
      if b = 0 ∨ b = 1 then
        some { initialized := b = 1
               authority := ⟨rest.take 32, by simp [h]⟩
               token_mint := ⟨(rest.drop 32).take 32, by simp [h]⟩
               bump := (rest.drop 64).headD 0 }
      else none
    else none
  | [] => none

end ProxyState

/-- The `src/error.rs`: the program's typed errors (`ProxyError`). -/
inductive ProxyError
  | NotInitialized
  | AlreadyInitialized
  | InvalidAuthority
  | InvalidMultiplier
  | InvalidMint
  | InvalidStateAccount
  | InvalidPDA
deriving DecidableEq

/-- The `#[repr]` discriminant used by `ProxyError as u32`. -/
def ProxyError.code : ProxyError → Nat
  | .NotInitialized => 0
  | .AlreadyInitialized => 1
  | .InvalidAuthority => 2
  | .InvalidMultiplier => 3
  | .InvalidMint => 4
  | .InvalidStateAccount => 5
  | .InvalidPDA => 6

/-- The `solana_program::program_error::ProgramError` (the variants this
program can produce). `BorshIoError` stands for the error produced when a
borsh `try_from_slice` / `serialize` fails. -/
inductive ProgramError
  | MissingRequiredSignature
  | NotEnoughAccountKeys
  | BorshIoError
  | Custom (code : Nat)
deriving DecidableEq

/-- The `impl From<ProxyError> for ProgramError`: `Custom(e as u32)`. -/
def ProxyError.toProgramError (e : ProxyError) : ProgramError :=
  .Custom e.code

/-- The `solana_program::instruction::AccountMeta`. -/
structure AccountMeta where
  pubkey : Pubkey
  is_signer : Bool
  is_writable : Bool
deriving DecidableEq

/-- The `AccountMeta::new(pubkey, is_signer)`: writable. -/
def AccountMeta.new (pubkey : Pubkey) (is_signer : Bool) : AccountMeta :=
  ⟨pubkey, is_signer, true⟩

/-- The `AccountMeta::new_readonly(pubkey, is_signer)`. -/
def AccountMeta.new_readonly (pubkey : Pubkey) (is_signer : Bool) : AccountMeta :=
  ⟨pubkey, is_signer, false⟩

/-- The `solana_program::instruction::Instruction`. -/
structure Instruction where
  program_id : Pubkey
  accounts : List AccountMeta
  data : List Nat
deriving DecidableEq

/-- The `src/token_2022_helpers.rs`: `TOKEN_2022_PROGRAM_ID`, the base58
decoding of `TokenzQdBNbLqP5VEhdkAS6EPFLC1PHnBqCXEpPxuEb`. -/
def TOKEN_2022_PROGRAM_ID : Pubkey :=
  ⟨[6, 221, 246, 225, 238, 117, 143, 222, 24, 66, 93, 188, 228, 108, 205,
    218, 182, 26, 252, 77, 131, 185, 13, 39, 254, 189, 249, 40, 216, 161,
    139, 252], by simp⟩

/-- The `TokenInstruction::ScaledUiAmountExtension` discriminant. -/
def TokenInstruction.ScaledUiAmountExtension : Nat := 43

/-- The `ScaledUiAmountMintInstruction::UpdateMultiplier` discriminant. -/
def ScaledUiAmountMintInstruction.UpdateMultiplier : Nat := 1

namespace token_2022_helpers

/-- The `token_2022_helpers::update_multiplier`: builds the Token-2022
ScaledUiAmount `UpdateMultiplier` CPI instruction. -/
def update_multiplier (mint : Pubkey) (authority : Pubkey)
    (multiplier : F64) (effective_timestamp : Int) :
    Except ProgramError Instruction :=
  let accounts := [AccountMeta.new mint false,
                   AccountMeta.new_readonly authority true]
  let instruction_data :=
    [TokenInstruction.ScaledUiAmountExtension] ++
    [ScaledUiAmountMintInstruction.UpdateMultiplier] ++
    multiplier.to_le_bytes ++
    i64ToLeBytes effective_timestamp
  .ok { program_id := TOKEN_2022_PROGRAM_ID
        accounts := accounts
        data := instruction_data }

end token_2022_helpers

/-- The slice of an account the processor reads (`AccountInfo`): its
address, whether the host verified its signature, and its data bytes. -/
structure AccountInfo where
  key : Pubkey
  is_signer : Bool
  data : List Nat
deriving DecidableEq

/-- The `Pubkey::find_program_address(seeds, program_id) -> (Pubkey, u8)`:
a host primitive (SHA-256 based), passed to the processor as an explicit
parameter. -/
abbrev DeriveFn := List (List Nat) → Pubkey → Pubkey × Nat

/-- The `system_instruction::create_account(from, to, lamports, space, owner)`:
the account-creation request the processor hands to the host. -/
structure CreateAccountIx where
  from_pubkey : Pubkey
  to_pubkey : Pubkey
  lamports : Nat
  space : Nat
  owner : Pubkey
deriving DecidableEq

/-- Effects of a successful `Initialize`: the account-creation request,
the seeds used to sign it, and the bytes written to the state account. -/
structure InitEffects where
  create_ix : CreateAccountIx
  signer_seeds : List (List (List Nat))
  new_data : List Nat
deriving DecidableEq

/-- Effects of a successful `UpdateMultiplier`: the CPI instruction issued
via `invoke_signed`, the seeds used to sign it, and the state-account data
after the handler (the handler performs no write, so it equals the input
data by construction). -/
structure UpdateMultiplierEffects where
  cpi : Instruction
  signer_seeds : List (List (List Nat))
  final_state_data : List Nat
deriving DecidableEq

/-- Borsh `serialize` of a `ProxyState` into an existing account buffer:
writes the encoding at the start of the buffer, leaving any tail
untouched; fails when the buffer is too small. -/
def serializeInto (s : ProxyState) (buf : List Nat) : Except ProgramError (List Nat) :=
  if s.serialize.length ≤ buf.length then
    .ok (s.serialize ++ buf.drop s.serialize.length)
  else
    .error .BorshIoError

/-- The `try_validate_multiplier` (`src/processor.rs`): accepts when
`multiplier.is_sign_positive() && multiplier.is_normal()`. -/
def try_validate_multiplier (multiplier : F64) : Except ProgramError Unit :=
  if multiplier.is_sign_positive && multiplier.is_normal then
    .ok ()
  else
    .error (ProxyError.toProgramError .InvalidMultiplier)

namespace Processor

/-- The `Processor::process_initialize`. Accounts in order: payer, state,
authority PDA, token mint, system program. -/
def process_initialize (fpa : DeriveFn) (rentMin : Nat → Nat)
    (program_id : Pubkey) (accounts : List AccountInfo) (authority : Pubkey) :
    Except ProgramError InitEffects :=
  match accounts with
  | payer_info :: state_info :: authority_pda_info :: token_mint_info ::
      _system_program_info :: _ =>
    if payer_info.is_signer then
      let sp := fpa [ProxyState.STATE_SEED] program_id
      if sp.1 ≠ state_info.key then
        .error (ProxyError.toProgramError .InvalidStateAccount)
      else
        let ap := fpa [ProxyState.AUTHORITY_SEED] program_id
        if ap.1 ≠ authority_pda_info.key then
          .error (ProxyError.toProgramError .InvalidPDA)
        else
          let initGuard : Except ProgramError Unit :=
            if state_info.data.length > 0 then
              match ProxyState.try_from_slice state_info.data with
              | none => .error .BorshIoError
              | some state =>
                if state.initialized then
                  .error (ProxyError.toProgramError .AlreadyInitialized)
                else .ok ()
            else .ok ()
          match initGuard with
          | .error e => .error e
          | .ok _ =>
            let space := ProxyState.LEN
            let lamports := rentMin space
            let state : ProxyState :=
              { initialized := true
                authority := authority
                token_mint := token_mint_info.key
                bump := ap.2 }
            match serializeInto state (List.replicate space 0) with
            | .error e => .error e
            | .ok written =>
              .ok { create_ix :=
                      { from_pubkey := payer_info.key
                        to_pubkey := state_info.key
                        lamports := lamports
                        space := space
                        owner := program_id }
                    signer_seeds := [[ProxyState.STATE_SEED, [sp.2]]]
                    new_data := written }
    else .error .MissingRequiredSignature
  | _ => .error .NotEnoughAccountKeys

/-- The `Processor::process_update_multiplier`. Accounts in order: authority,
state, authority PDA, token mint, token program. -/
def process_update_multiplier (fpa : DeriveFn) (program_id : Pubkey)
    (accounts : List AccountInfo) (new_multiplier : F64)
    (effective_timestamp : Int) :
    Except ProgramError UpdateMultiplierEffects :=
  match accounts with
  | authority_info :: state_info :: authority_pda_info :: token_mint_info ::
      _token_program_info :: _ =>
    if authority_info.is_signer then
      match ProxyState.try_from_slice state_info.data with
      | none => .error .BorshIoError
      | some state =>
        if state.initialized then
          if state.authority ≠ authority_info.key then
            .error (ProxyError.toProgramError .InvalidAuthority)
          else if state.token_mint ≠ token_mint_info.key then
            .error (ProxyError.toProgramError .InvalidMint)
          else
            match try_validate_multiplier new_multiplier with
            | .error e => .error e
            | .ok _ =>
              let ap := fpa [ProxyState.AUTHORITY_SEED] program_id
              if ap.1 ≠ authority_pda_info.key ∨ ap.2 ≠ state.bump then
                .error (ProxyError.toProgramError .InvalidPDA)
              else
                match token_2022_helpers.update_multiplier token_mint_info.key
                    authority_pda_info.key new_multiplier effective_timestamp with
                | .error e => .error e
                | .ok update_ix =>
                  .ok { cpi := update_ix
                        signer_seeds := [[ProxyState.AUTHORITY_SEED, [state.bump]]]
                        final_state_data := state_info.data }
        else .error (ProxyError.toProgramError .NotInitialized)
    else .error .MissingRequiredSignature
  | _ => .error .NotEnoughAccountKeys

/-- The `Processor::process_update_authority`. Accounts in order: authority,
state. Returns the state-account data after the in-place rewrite. -/
def process_update_authority (_program_id : Pubkey)
    (accounts : List AccountInfo) (new_authority : Pubkey) :
    Except ProgramError (List Nat) :=
  match accounts with
  | authority_info :: state_info :: _ =>
    if authority_info.is_signer then
      match ProxyState.try_from_slice state_info.data with
      | none => .error .BorshIoError
      | some state =>
        if state.initialized then
          if state.authority ≠ authority_info.key then
            .error (ProxyError.toProgramError .InvalidAuthority)
          else if new_authority = Pubkey.default then
            .error (ProxyError.toProgramError .InvalidAuthority)
          else
            serializeInto { state with authority := new_authority } state_info.data
        else .error (ProxyError.toProgramError .NotInitialized)
    else .error .MissingRequiredSignature
  | _ => .error .NotEnoughAccountKeys

end Processor

/-- Decidable equality of handler results, for closed evaluations. -/
instance {ε α : Type} [DecidableEq ε] [DecidableEq α] :
    DecidableEq (Except ε α) := fun x y =>
  match x, y with
  | .ok a, .ok b =>
    if h : a = b then isTrue (by rw [h]) else isFalse (by simp [h])
  | .error e, .error f =>
    if h : e = f then isTrue (by rw [h]) else isFalse (by simp [h])
  | .ok _, .error _ => isFalse (by simp)
  | .error _, .ok _ => isFalse (by simp)

/-! ### Concrete fixtures for closed evaluations -/

/-- A concrete 32-byte identity: 31 zero bytes then `n`. -/
def pkOf (n : Nat) : Pubkey := ⟨List.replicate 31 0 ++ [n], by simp⟩

/-- A concrete stand-in for `Pubkey::find_program_address`: the address
depends on the first seed, the bump is 254. -/
def testDerive : DeriveFn := fun seeds _ => (pkOf ((seeds.headD []).sum % 256), 254)

/-- A concrete stand-in for `Rent::minimum_balance`. -/
def testRentMin : Nat → Nat := fun space => space * 10

/-- A concrete program id. -/
def testProgramId : Pubkey := pkOf 9

/-- Concrete principals and accounts. -/
def authA : Pubkey := pkOf 1
def authB : Pubkey := pkOf 2
def mintK : Pubkey := pkOf 3
def payerK : Pubkey := pkOf 4
def sysProgK : Pubkey := pkOf 5
def tokProgK : Pubkey := pkOf 6

/-- The `testDerive [STATE_SEED] _` evaluates to `(pkOf 33, 254)`. -/
def statePdaK : Pubkey := pkOf 33

/-- The `testDerive [AUTHORITY_SEED] _` evaluates to `(pkOf 138, 254)`. -/
def authPdaK : Pubkey := pkOf 138

/-- A concrete initialized state whose bump matches `testDerive`. -/
def stA : ProxyState :=
  { initialized := true, authority := authA, token_mint := mintK, bump := 254 }

/-- A concrete uninitialized state. -/
def stU : ProxyState :=
  { initialized := false, authority := authA, token_mint := mintK, bump := 254 }

def aAccA : AccountInfo := ⟨authA, true, []⟩
def aAccANoSig : AccountInfo := ⟨authA, false, []⟩
def aAccB : AccountInfo := ⟨authB, true, []⟩
def sAccA : AccountInfo := ⟨statePdaK, false, stA.serialize⟩
def sAccU : AccountInfo := ⟨statePdaK, false, stU.serialize⟩
def sAccEmpty : AccountInfo := ⟨statePdaK, false, []⟩
def pAcc : AccountInfo := ⟨authPdaK, false, []⟩
def pAccBad : AccountInfo := ⟨pkOf 99, false, []⟩
def mAcc : AccountInfo := ⟨mintK, false, []⟩
def mAccBad : AccountInfo := ⟨pkOf 7, false, []⟩
def tAcc : AccountInfo := ⟨tokProgK, false, []⟩
def payerAcc : AccountInfo := ⟨payerK, true, []⟩
def sysAcc : AccountInfo := ⟨sysProgK, false, []⟩

/-- The value 1.0 as an `F64`. -/
def f64One : F64 := ⟨0x3FF0000000000000, by norm_num⟩
/-- The value 0.5 as an `F64` (a normal value inside `(0, 1.0]`). -/
def f64Half : F64 := ⟨0x3FE0000000000000, by norm_num⟩
/-- Positive zero as an `F64`. -/
def f64Zero : F64 := ⟨0, by norm_num⟩
/-- Negative one as an `F64`. -/
def f64NegOne : F64 := ⟨0xBFF0000000000000, by norm_num⟩
/-- A quiet NaN. -/
def f64Nan : F64 := ⟨0x7FF8000000000000, by norm_num⟩
/-- Positive infinity. -/
def f64Inf : F64 := ⟨0x7FF0000000000000, by norm_num⟩
/-- The smallest positive subnormal. -/
def f64Sub : F64 := ⟨1, by norm_num⟩

/-- The effects of the concrete successful `UpdateMultiplier` run used as
a closed witness. -/
def updEffA : UpdateMultiplierEffects :=
  { cpi := { program_id := TOKEN_2022_PROGRAM_ID
             accounts := [AccountMeta.new mintK false,
                          AccountMeta.new_readonly authPdaK true]
             data := [43, 1] ++ f64One.to_le_bytes ++ i64ToLeBytes 1700000000 }
    signer_seeds := [[ProxyState.AUTHORITY_SEED, [254]]]
    final_state_data := stA.serialize }

/-- The effects of the concrete successful `Initialize` run (authority
`authA`) used as a closed witness. -/
def initEffA : InitEffects :=
  { create_ix := { from_pubkey := payerK
                   to_pubkey := statePdaK
                   lamports := testRentMin ProxyState.LEN
                   space := ProxyState.LEN
                   owner := testProgramId }
    signer_seeds := [[ProxyState.STATE_SEED, [254]]]
    new_data := stA.serialize }

/-- The state written by a concrete `Initialize` run whose supplied
authority is the zero identity. -/
def stZero : ProxyState :=
  { initialized := true, authority := Pubkey.default, token_mint := mintK
    bump := 254 }

/-- The effects of that zero-authority `Initialize` run. -/
def initEffZero : InitEffects :=
  { create_ix := { from_pubkey := payerK
                   to_pubkey := statePdaK
                   lamports := testRentMin ProxyState.LEN
                   space := ProxyState.LEN
                   owner := testProgramId }
    signer_seeds := [[ProxyState.STATE_SEED, [254]]]
    new_data := stZero.serialize }

/-- A state account holding a valid encoded state but stored under an
address different from the derivation of `STATE_SEED`. -/
def sAccBadKey : AccountInfo := ⟨pkOf 42, false, stA.serialize⟩

/-- An account whose address is the derivation of the seed bytes of
`"authority"` (the seed the spec names), not of `AUTHORITY_SEED`. -/
def pAccClaimSeed : AccountInfo := ⟨pkOf 233, false, []⟩

/-- The persisted states reachable through sequences of successful
operations: a successful `Initialize` whose written bytes decode to the
state, then successful `UpdateMultiplier` steps (which write nothing) and
successful `UpdateAuthority` steps (whose rewritten bytes decode to the
new state) against an account holding the current state's encoding.
A handler invoked with fewer accounts than it reads fails with
`NotEnoughAccountKeys`, so such invocations are not transitions. -/
inductive Reachable (fpa : DeriveFn) (rentMin : Nat → Nat) (pid : Pubkey) :
    ProxyState → Prop
  | init_step (payer s apda mint sys : AccountInfo) (rest : List AccountInfo)
      (authority : Pubkey) (eff : InitEffects) (st : ProxyState) :
      Processor.process_initialize fpa rentMin pid
        (payer :: s :: apda :: mint :: sys :: rest) authority = .ok eff →
      ProxyState.try_from_slice eff.new_data = some st →
      Reachable fpa rentMin pid st
  | mult_step (st : ProxyState) (a s apda tm tp : AccountInfo)
      (rest : List AccountInfo) (m : F64) (t : Int)
      (eff : UpdateMultiplierEffects) :
      Reachable fpa rentMin pid st →
      s.data = st.serialize →
      Processor.process_update_multiplier fpa pid
        (a :: s :: apda :: tm :: tp :: rest) m t = .ok eff →
      Reachable fpa rentMin pid st
  | auth_step (st st' : ProxyState) (a s : AccountInfo)
      (rest : List AccountInfo) (na : Pubkey) (d : List Nat) :
      Reachable fpa rentMin pid st →
      s.data = st.serialize →
      Processor.process_update_authority pid (a :: s :: rest) na = .ok d →
      ProxyState.try_from_slice d = some st' →
      Reachable fpa rentMin pid st'

/-- Like `Reachable`, but restricted to executions whose `Initialize`
supplied a non-zero authority. -/
inductive ReachableNonzeroInit (fpa : DeriveFn) (rentMin : Nat → Nat)
    (pid : Pubkey) : ProxyState → Prop
  | init_step (payer s apda mint sys : AccountInfo) (rest : List AccountInfo)
      (authority : Pubkey) (eff : InitEffects) (st : ProxyState) :
      authority ≠ Pubkey.default →
      Processor.process_initialize fpa rentMin pid
        (payer :: s :: apda :: mint :: sys :: rest) authority = .ok eff →
      ProxyState.try_from_slice eff.new_data = some st →
      ReachableNonzeroInit fpa rentMin pid st
  | mult_step (st : ProxyState) (a s apda tm tp : AccountInfo)
      (rest : List AccountInfo) (m : F64) (t : Int)
      (eff : UpdateMultiplierEffects) :
      ReachableNonzeroInit fpa rentMin pid st →
      s.data = st.serialize →
      Processor.process_update_multiplier fpa pid
        (a :: s :: apda :: tm :: tp :: rest) m t = .ok eff →
      ReachableNonzeroInit fpa rentMin pid st
  | auth_step (st st' : ProxyState) (a s : AccountInfo)
      (rest : List AccountInfo) (na : Pubkey) (d : List Nat) :
      ReachableNonzeroInit fpa rentMin pid st →
      s.data = st.serialize →
      Processor.process_update_authority pid (a :: s :: rest) na = .ok d →
      ProxyState.try_from_slice d = some st' →
      ReachableNonzeroInit fpa rentMin pid st'

/-! ### General lemmas about the embedded code -/

theorem F64.expField_lt (m : F64) : m.expField < 2048 :=
  Nat.mod_lt _ (by norm_num)

/-- The `try_validate_multiplier` succeeds exactly on the enforced check. -/
theorem try_validate_multiplier_ok_iff (m : F64) :
    try_validate_multiplier m = .ok () ↔ (m.is_sign_positive && m.is_normal) = true := by
  unfold try_validate_multiplier
  split <;> simp_all

/-- On a rejected value, `try_validate_multiplier` returns
`InvalidMultiplier`. -/
theorem try_validate_multiplier_rejects (m : F64)
    (h : (m.is_sign_positive && m.is_normal) = false) :
    try_validate_multiplier m = .error (ProxyError.toProgramError .InvalidMultiplier) := by
  unfold try_validate_multiplier
  simp [h]

/-- The enforced check `is_sign_positive && is_normal` accepts exactly the
finite, strictly positive (positive sign, non-zero), non-subnormal
values. -/
theorem sign_positive_normal_iff (m : F64) :
    ((m.is_sign_positive && m.is_normal) = true) ↔
      (m.isFinite = true ∧ m.is_sign_positive = true ∧
        m.isZero = false ∧ m.isSubnormal = false) := by
  have h := m.expField_lt
  simp [F64.is_sign_positive, F64.is_normal, F64.isFinite, F64.isZero, F64.isSubnormal]
  omega

/-- Full characterization of a successful `UpdateMultiplier`. -/
theorem process_update_multiplier_ok_iff
    (fpa : DeriveFn) (pid : Pubkey) (a s apda tm tp : AccountInfo)
    (rest : List AccountInfo) (m : F64) (t : Int) (eff : UpdateMultiplierEffects) :
    Processor.process_update_multiplier fpa pid
        (a :: s :: apda :: tm :: tp :: rest) m t = .ok eff ↔
      (a.is_signer = true ∧ ∃ st, ProxyState.try_from_slice s.data = some st ∧
        st.initialized = true ∧ st.authority = a.key ∧ st.token_mint = tm.key ∧
        (m.is_sign_positive && m.is_normal) = true ∧
        (fpa [ProxyState.AUTHORITY_SEED] pid).1 = apda.key ∧
        (fpa [ProxyState.AUTHORITY_SEED] pid).2 = st.bump ∧
        eff = { cpi := { program_id := TOKEN_2022_PROGRAM_ID
                         accounts := [AccountMeta.new tm.key false,
                                      AccountMeta.new_readonly apda.key true]
                         data := [TokenInstruction.ScaledUiAmountExtension] ++
                           [ScaledUiAmountMintInstruction.UpdateMultiplier] ++
                           m.to_le_bytes ++ i64ToLeBytes t }
                signer_seeds := [[ProxyState.AUTHORITY_SEED, [st.bump]]]
                final_state_data := s.data }) := by
  unfold Processor.process_update_multiplier
  by_cases h1 : a.is_signer = true
  case neg =>
    simp only [Bool.not_eq_true] at h1
    simp [h1]
  case pos =>
    cases hdec : ProxyState.try_from_slice s.data with
    | none => simp [h1, hdec]
    | some st =>
      by_cases h2 : st.initialized = true
      case neg =>
        simp only [Bool.not_eq_true] at h2
        simp [h1, hdec, h2]
      case pos =>
        by_cases h3 : st.authority = a.key
        case neg => simp [h1, hdec, h2, h3]
        case pos =>
          by_cases h4 : st.token_mint = tm.key
          case neg => simp [h1, hdec, h2, h3, h4]
          case pos =>
            by_cases h5 : (m.is_sign_positive && m.is_normal) = true
            case neg =>
              have h5' := try_validate_multiplier_rejects m (by simpa using h5)
              simp [h1, hdec, h2, h3, h4, h5, h5', ProxyError.toProgramError]
            case pos =>
              have h5' : try_validate_multiplier m = .ok () :=
                (try_validate_multiplier_ok_iff m).2 h5
              by_cases h6 : (fpa [ProxyState.AUTHORITY_SEED] pid).1 = apda.key
              case neg =>
                simp [h1, hdec, h2, h3, h4, h5, h5', h6]
              case pos =>
                by_cases h7 : (fpa [ProxyState.AUTHORITY_SEED] pid).2 = st.bump
                case neg =>
                  simp [h1, hdec, h2, h3, h4, h5, h5', h6, h7]
                case pos =>
                  simp [h1, hdec, h2, h3, h4, h5, h5', h6, h7,
                    token_2022_helpers.update_multiplier]
                  try exact eq_comm

/-- The borsh encoding of a `ProxyState` is always exactly `LEN = 66`
bytes. -/
theorem ProxyState.serialize_length (st : ProxyState) : st.serialize.length = 66 := by
  obtain ⟨init, ⟨la, ha⟩, ⟨lm, hm⟩, bump⟩ := st
  cases init <;> simp [ProxyState.serialize, ha, hm]

/-- A buffer that decodes to a `ProxyState` is exactly 66 bytes long. -/
theorem ProxyState.try_from_slice_length {data : List Nat} {st : ProxyState}
    (h : ProxyState.try_from_slice data = some st) : data.length = 66 := by
  match data with
  | [] => simp [ProxyState.try_from_slice] at h
  | b :: rest =>
    rw [ProxyState.try_from_slice] at h
    split at h
    next hl => simp [hl]
    next => exact absurd h (by simp)

/-- Encode/decode round trip for `ProxyState`. -/
theorem ProxyState.try_from_slice_serialize (st : ProxyState) :
    ProxyState.try_from_slice st.serialize = some st := by
  obtain ⟨init, ⟨la, ha⟩, ⟨lm, hm⟩, bump⟩ := st
  have h1 : (la ++ (lm ++ [bump])).take 32 = la := by rw [← ha, List.take_left]
  have h2 : (la ++ (lm ++ [bump])).drop 32 = lm ++ [bump] := by rw [← ha, List.drop_left]
  have h3 : (lm ++ [bump]).take 32 = lm := by rw [← hm, List.take_left]
  have h4 : (la ++ (lm ++ [bump])).drop 64 = [bump] := by
    have h64 : (64 : Nat) = 32 + 32 := by norm_num
    rw [h64, ← List.drop_drop, h2, ← hm, List.drop_left]
  cases init <;>
    simp [ProxyState.serialize, ProxyState.try_from_slice, ha, hm, h1, h2, h3, h4]

/-- Full characterization of a successful `UpdateAuthority`. -/
theorem process_update_authority_ok_iff
    (pid : Pubkey) (a s : AccountInfo) (rest : List AccountInfo)
    (na : Pubkey) (d : List Nat) :
    Processor.process_update_authority pid (a :: s :: rest) na = .ok d ↔
      (a.is_signer = true ∧ ∃ st, ProxyState.try_from_slice s.data = some st ∧
        st.initialized = true ∧ st.authority = a.key ∧ na ≠ Pubkey.default ∧
        d = ({ st with authority := na } : ProxyState).serialize) := by
  unfold Processor.process_update_authority
  by_cases h1 : a.is_signer = true
  case neg =>
    simp only [Bool.not_eq_true] at h1
    simp [h1]
  case pos =>
    cases hdec : ProxyState.try_from_slice s.data with
    | none => simp [h1, hdec]
    | some st =>
      by_cases h2 : st.initialized = true
      case neg =>
        simp only [Bool.not_eq_true] at h2
        simp [h1, hdec, h2]
      case pos =>
        by_cases h3 : st.authority = a.key
        case neg => simp [h1, hdec, h2, h3]
        case pos =>
          by_cases h4 : na = Pubkey.default
          case pos => simp [h1, hdec, h2, h3, h4]
          case neg =>
            have hl : s.data.length = 66 := ProxyState.try_from_slice_length hdec
            have hdrop : s.data.drop 66 = [] := by rw [← hl, List.drop_length]
            simp [h1, hdec, h2, h3, h4, serializeInto, ProxyState.serialize_length,
              hl, hdrop]
            try exact eq_comm

/-- Full characterization of a successful `Initialize`. -/
theorem process_initialize_ok_iff
    (fpa : DeriveFn) (rentMin : Nat → Nat) (pid : Pubkey)
    (payer s apda mint sys : AccountInfo) (rest : List AccountInfo)
    (authority : Pubkey) (eff : InitEffects) :
    Processor.process_initialize fpa rentMin pid
        (payer :: s :: apda :: mint :: sys :: rest) authority = .ok eff ↔
      (payer.is_signer = true ∧
        (fpa [ProxyState.STATE_SEED] pid).1 = s.key ∧
        (fpa [ProxyState.AUTHORITY_SEED] pid).1 = apda.key ∧
        (s.data.length = 0 ∨
          ∃ st, ProxyState.try_from_slice s.data = some st ∧ st.initialized = false) ∧
        eff = { create_ix := { from_pubkey := payer.key
                               to_pubkey := s.key
                               lamports := rentMin ProxyState.LEN
                               space := ProxyState.LEN
                               owner := pid }
                signer_seeds := [[ProxyState.STATE_SEED,
                                  [(fpa [ProxyState.STATE_SEED] pid).2]]]
                new_data := ({ initialized := true
                               authority := authority
                               token_mint := mint.key
                               bump := (fpa [ProxyState.AUTHORITY_SEED] pid).2 } :
                               ProxyState).serialize }) := by
  unfold Processor.process_initialize
  by_cases h1 : payer.is_signer = true
  case neg =>
    simp only [Bool.not_eq_true] at h1
    simp [h1]
  case pos =>
    by_cases hk1 : (fpa [ProxyState.STATE_SEED] pid).1 = s.key
    case neg => simp [h1, hk1]
    case pos =>
      by_cases hk2 : (fpa [ProxyState.AUTHORITY_SEED] pid).1 = apda.key
      case neg => simp [h1, hk1, hk2]
      case pos =>
        have hdrop0 : (List.replicate ProxyState.LEN 0).drop 66 = [] := by
          simp [ProxyState.LEN]
        by_cases hlen : s.data.length > 0
        case pos =>
          cases hdec : ProxyState.try_from_slice s.data with
          | none =>
            simp [h1, hk1, hk2, hlen, hdec, Nat.pos_iff_ne_zero]
            intro hnil
            rw [hnil] at hlen
            exact absurd hlen (by simp)
          | some st =>
            by_cases hinit : st.initialized = true
            case pos =>
              simp [h1, hk1, hk2, hlen, hdec, hinit, Nat.pos_iff_ne_zero]
              intro hnil
              rw [hnil] at hlen
              exact absurd hlen (by simp)
            case neg =>
              simp only [Bool.not_eq_true] at hinit
              simp [h1, hk1, hk2, hlen, hdec, hinit, serializeInto,
                ProxyState.serialize_length, ProxyState.LEN, hdrop0,
                Nat.pos_iff_ne_zero]
              try exact eq_comm
        case neg =>
          simp only [gt_iff_lt, Nat.pos_iff_ne_zero, ne_eq, not_not] at hlen
          simp [h1, hk1, hk2, hlen, serializeInto,
            ProxyState.serialize_length, ProxyState.LEN, hdrop0]
          try exact eq_comm

/-- The `UpdateMultiplier` with an unverified requester fails with
`MissingRequiredSignature`. -/
theorem pum_err_not_signer
    (fpa : DeriveFn) (pid : Pubkey) (a s apda tm tp : AccountInfo)
    (rest : List AccountInfo) (m : F64) (t : Int)
    (h1 : a.is_signer = false) :
    Processor.process_update_multiplier fpa pid
        (a :: s :: apda :: tm :: tp :: rest) m t =
      .error .MissingRequiredSignature := by
  unfold Processor.process_update_multiplier
  simp [h1]

/-- The `UpdateMultiplier` with undecodable state data fails with the borsh
deserialization error. -/
theorem pum_err_decode
    (fpa : DeriveFn) (pid : Pubkey) (a s apda tm tp : AccountInfo)
    (rest : List AccountInfo) (m : F64) (t : Int)
    (h1 : a.is_signer = true)
    (hdec : ProxyState.try_from_slice s.data = none) :
    Processor.process_update_multiplier fpa pid
        (a :: s :: apda :: tm :: tp :: rest) m t = .error .BorshIoError := by
  unfold Processor.process_update_multiplier
  simp [h1, hdec]

/-- The `UpdateMultiplier` on a decoded but uninitialized state fails with
`NotInitialized`. -/
theorem pum_err_not_initialized
    (fpa : DeriveFn) (pid : Pubkey) (a s apda tm tp : AccountInfo)
    (rest : List AccountInfo) (m : F64) (t : Int) (st : ProxyState)
    (h1 : a.is_signer = true)
    (hdec : ProxyState.try_from_slice s.data = some st)
    (h2 : st.initialized = false) :
    Processor.process_update_multiplier fpa pid
        (a :: s :: apda :: tm :: tp :: rest) m t =
      .error (ProxyError.toProgramError .NotInitialized) := by
  unfold Processor.process_update_multiplier
  simp [h1, hdec, h2]

/-- The `UpdateMultiplier` by a principal other than the stored authority
fails with `InvalidAuthority`. -/
theorem pum_err_authority
    (fpa : DeriveFn) (pid : Pubkey) (a s apda tm tp : AccountInfo)
    (rest : List AccountInfo) (m : F64) (t : Int) (st : ProxyState)
    (h1 : a.is_signer = true)
    (hdec : ProxyState.try_from_slice s.data = some st)
    (h2 : st.initialized = true)
    (h3 : st.authority ≠ a.key) :
    Processor.process_update_multiplier fpa pid
        (a :: s :: apda :: tm :: tp :: rest) m t =
      .error (ProxyError.toProgramError .InvalidAuthority) := by
  unfold Processor.process_update_multiplier
  simp [h1, hdec, h2, h3]

/-- The `UpdateMultiplier` against a mint other than the stored one fails
with `InvalidMint`. -/
theorem pum_err_mint
    (fpa : DeriveFn) (pid : Pubkey) (a s apda tm tp : AccountInfo)
    (rest : List AccountInfo) (m : F64) (t : Int) (st : ProxyState)
    (h1 : a.is_signer = true)
    (hdec : ProxyState.try_from_slice s.data = some st)
    (h2 : st.initialized = true)
    (h3 : st.authority = a.key)
    (h4 : st.token_mint ≠ tm.key) :
    Processor.process_update_multiplier fpa pid
        (a :: s :: apda :: tm :: tp :: rest) m t =
      .error (ProxyError.toProgramError .InvalidMint) := by
  unfold Processor.process_update_multiplier
  simp [h1, hdec, h2, h3, h4]

/-- The `UpdateMultiplier` with a rejected multiplier fails with
`InvalidMultiplier` (and hence issues no delegated call). -/
theorem pum_err_multiplier
    (fpa : DeriveFn) (pid : Pubkey) (a s apda tm tp : AccountInfo)
    (rest : List AccountInfo) (m : F64) (t : Int) (st : ProxyState)
    (h1 : a.is_signer = true)
    (hdec : ProxyState.try_from_slice s.data = some st)
    (h2 : st.initialized = true)
    (h3 : st.authority = a.key)
    (h4 : st.token_mint = tm.key)
    (h5 : (m.is_sign_positive && m.is_normal) = false) :
    Processor.process_update_multiplier fpa pid
        (a :: s :: apda :: tm :: tp :: rest) m t =
      .error (ProxyError.toProgramError .InvalidMultiplier) := by
  unfold Processor.process_update_multiplier
  have h5' := try_validate_multiplier_rejects m h5
  simp [h1, hdec, h2, h3, h4, h5']

/-- The `UpdateMultiplier` with a mismatched signing address or bump fails
with `InvalidPDA`. -/
theorem pum_err_pda
    (fpa : DeriveFn) (pid : Pubkey) (a s apda tm tp : AccountInfo)
    (rest : List AccountInfo) (m : F64) (t : Int) (st : ProxyState)
    (h1 : a.is_signer = true)
    (hdec : ProxyState.try_from_slice s.data = some st)
    (h2 : st.initialized = true)
    (h3 : st.authority = a.key)
    (h4 : st.token_mint = tm.key)
    (h5 : (m.is_sign_positive && m.is_normal) = true)
    (h6 : (fpa [ProxyState.AUTHORITY_SEED] pid).1 ≠ apda.key ∨
          (fpa [ProxyState.AUTHORITY_SEED] pid).2 ≠ st.bump) :
    Processor.process_update_multiplier fpa pid
        (a :: s :: apda :: tm :: tp :: rest) m t =
      .error (ProxyError.toProgramError .InvalidPDA) := by
  unfold Processor.process_update_multiplier
  have h5' : try_validate_multiplier m = .ok () :=
    (try_validate_multiplier_ok_iff m).2 h5
  rcases h6 with h6 | h6 <;> simp [h1, hdec, h2, h3, h4, h5', h6]

/-- The `UpdateAuthority` with an unverified requester fails with
`MissingRequiredSignature`. -/
theorem pua_err_not_signer
    (pid : Pubkey) (a s : AccountInfo) (rest : List AccountInfo) (na : Pubkey)
    (h1 : a.is_signer = false) :
    Processor.process_update_authority pid (a :: s :: rest) na =
      .error .MissingRequiredSignature := by
  unfold Processor.process_update_authority
  simp [h1]

/-- The `UpdateAuthority` with undecodable state data fails with the borsh
deserialization error. -/
theorem pua_err_decode
    (pid : Pubkey) (a s : AccountInfo) (rest : List AccountInfo) (na : Pubkey)
    (h1 : a.is_signer = true)
    (hdec : ProxyState.try_from_slice s.data = none) :
    Processor.process_update_authority pid (a :: s :: rest) na =
      .error .BorshIoError := by
  unfold Processor.process_update_authority
  simp [h1, hdec]

/-- The `UpdateAuthority` on a decoded but uninitialized state fails with
`NotInitialized`. -/
theorem pua_err_not_initialized
    (pid : Pubkey) (a s : AccountInfo) (rest : List AccountInfo) (na : Pubkey)
    (st : ProxyState)
    (h1 : a.is_signer = true)
    (hdec : ProxyState.try_from_slice s.data = some st)
    (h2 : st.initialized = false) :
    Processor.process_update_authority pid (a :: s :: rest) na =
      .error (ProxyError.toProgramError .NotInitialized) := by
  unfold Processor.process_update_authority
  simp [h1, hdec, h2]

/-- The `UpdateAuthority` by a principal other than the stored authority
fails with `InvalidAuthority`. -/
theorem pua_err_authority
    (pid : Pubkey) (a s : AccountInfo) (rest : List AccountInfo) (na : Pubkey)
    (st : ProxyState)
    (h1 : a.is_signer = true)
    (hdec : ProxyState.try_from_slice s.data = some st)
    (h2 : st.initialized = true)
    (h3 : st.authority ≠ a.key) :
    Processor.process_update_authority pid (a :: s :: rest) na =
      .error (ProxyError.toProgramError .InvalidAuthority) := by
  unfold Processor.process_update_authority
  simp [h1, hdec, h2, h3]

/-- The `UpdateAuthority` to the zero identity fails with `InvalidAuthority`
when all earlier checks pass. -/
theorem pua_err_zero_authority
    (pid : Pubkey) (a s : AccountInfo) (rest : List AccountInfo)
    (st : ProxyState)
    (h1 : a.is_signer = true)
    (hdec : ProxyState.try_from_slice s.data = some st)
    (h2 : st.initialized = true)
    (h3 : st.authority = a.key) :
    Processor.process_update_authority pid (a :: s :: rest) Pubkey.default =
      .error (ProxyError.toProgramError .InvalidAuthority) := by
  unfold Processor.process_update_authority
  simp [h1, hdec, h2, h3]

/-- The `UpdateAuthority` to the zero identity never succeeds, whatever the
accounts are. -/
theorem pua_default_never_ok
    (pid : Pubkey) (accounts : List AccountInfo) (d : List Nat) :
    Processor.process_update_authority pid accounts Pubkey.default ≠ .ok d := by
  intro h
  match accounts with
  | [] => simp [Processor.process_update_authority] at h
  | [a] => simp [Processor.process_update_authority] at h
  | a :: s :: rest =>
    rw [process_update_authority_ok_iff] at h
    obtain ⟨-, st, -, -, -, hne, -⟩ := h
    exact hne rfl

/-- The `Initialize` with an unverified payer fails with
`MissingRequiredSignature`. -/
theorem pinit_err_not_signer
    (fpa : DeriveFn) (rentMin : Nat → Nat) (pid : Pubkey)
    (payer s apda mint sys : AccountInfo) (rest : List AccountInfo)
    (authority : Pubkey)
    (h1 : payer.is_signer = false) :
    Processor.process_initialize fpa rentMin pid
        (payer :: s :: apda :: mint :: sys :: rest) authority =
      .error .MissingRequiredSignature := by
  unfold Processor.process_initialize
  simp [h1]

/-- The `Initialize` with a state address other than the derivation from
`STATE_SEED` fails with `InvalidStateAccount`. -/
theorem pinit_err_state_key
    (fpa : DeriveFn) (rentMin : Nat → Nat) (pid : Pubkey)
    (payer s apda mint sys : AccountInfo) (rest : List AccountInfo)
    (authority : Pubkey)
    (h1 : payer.is_signer = true)
    (hk1 : (fpa [ProxyState.STATE_SEED] pid).1 ≠ s.key) :
    Processor.process_initialize fpa rentMin pid
        (payer :: s :: apda :: mint :: sys :: rest) authority =
      .error (ProxyError.toProgramError .InvalidStateAccount) := by
  unfold Processor.process_initialize
  simp [h1, hk1]

/-- The `Initialize` with a signing address other than the derivation from
`AUTHORITY_SEED` fails with `InvalidPDA`. -/
theorem pinit_err_pda_key
    (fpa : DeriveFn) (rentMin : Nat → Nat) (pid : Pubkey)
    (payer s apda mint sys : AccountInfo) (rest : List AccountInfo)
    (authority : Pubkey)
    (h1 : payer.is_signer = true)
    (hk1 : (fpa [ProxyState.STATE_SEED] pid).1 = s.key)
    (hk2 : (fpa [ProxyState.AUTHORITY_SEED] pid).1 ≠ apda.key) :
    Processor.process_initialize fpa rentMin pid
        (payer :: s :: apda :: mint :: sys :: rest) authority =
      .error (ProxyError.toProgramError .InvalidPDA) := by
  unfold Processor.process_initialize
  simp [h1, hk1, hk2]

/-- The `Initialize` against a state account whose data decodes with
`initialized = true` fails with `AlreadyInitialized`. -/
theorem pinit_err_already
    (fpa : DeriveFn) (rentMin : Nat → Nat) (pid : Pubkey)
    (payer s apda mint sys : AccountInfo) (rest : List AccountInfo)
    (authority : Pubkey) (st : ProxyState)
    (h1 : payer.is_signer = true)
    (hk1 : (fpa [ProxyState.STATE_SEED] pid).1 = s.key)
    (hk2 : (fpa [ProxyState.AUTHORITY_SEED] pid).1 = apda.key)
    (hdec : ProxyState.try_from_slice s.data = some st)
    (hinit : st.initialized = true) :
    Processor.process_initialize fpa rentMin pid
        (payer :: s :: apda :: mint :: sys :: rest) authority =
      .error (ProxyError.toProgramError .AlreadyInitialized) := by
  have hlen : s.data.length = 66 := ProxyState.try_from_slice_length hdec
  unfold Processor.process_initialize
  simp [h1, hk1, hk2, hlen, hdec, hinit]

/-- The `UpdateMultiplier` returns `NotInitialized` only when the state data
decodes successfully to a record with `initialized = false`. -/
theorem pum_notinit_inversion
    (fpa : DeriveFn) (pid : Pubkey) (a s apda tm tp : AccountInfo)
    (rest : List AccountInfo) (m : F64) (t : Int)
    (h : Processor.process_update_multiplier fpa pid
        (a :: s :: apda :: tm :: tp :: rest) m t =
      .error (ProxyError.toProgramError .NotInitialized)) :
    ∃ st, ProxyState.try_from_slice s.data = some st ∧ st.initialized = false := by
  unfold Processor.process_update_multiplier at h
  by_cases h1 : a.is_signer = true
  case neg =>
    simp only [Bool.not_eq_true] at h1
    simp [h1, ProxyError.toProgramError, ProxyError.code] at h
  case pos =>
    cases hdec : ProxyState.try_from_slice s.data with
    | none => simp [h1, hdec, ProxyError.toProgramError, ProxyError.code] at h
    | some st =>
      refine ⟨st, rfl, ?_⟩
      by_cases h2 : st.initialized = true
      case neg => simpa using h2
      case pos =>
        exfalso
        by_cases h3 : st.authority = a.key
        case neg =>
          simp [h1, hdec, h2, h3, ProxyError.toProgramError, ProxyError.code] at h
        case pos =>
          by_cases h4 : st.token_mint = tm.key
          case neg =>
            simp [h1, hdec, h2, h3, h4, ProxyError.toProgramError,
              ProxyError.code] at h
          case pos =>
            by_cases h5 : (m.is_sign_positive && m.is_normal) = true
            case neg =>
              have h5' := try_validate_multiplier_rejects m (by simpa using h5)
              simp [h1, hdec, h2, h3, h4, h5', ProxyError.toProgramError,
                ProxyError.code] at h
            case pos =>
              have h5' : try_validate_multiplier m = .ok () :=
                (try_validate_multiplier_ok_iff m).2 h5
              by_cases h6 : (fpa [ProxyState.AUTHORITY_SEED] pid).1 = apda.key
              case neg =>
                simp [h1, hdec, h2, h3, h4, h5', h6, ProxyError.toProgramError,
                  ProxyError.code] at h
              case pos =>
                by_cases h7 : (fpa [ProxyState.AUTHORITY_SEED] pid).2 = st.bump
                case neg =>
                  simp [h1, hdec, h2, h3, h4, h5', h6, h7,
                    ProxyError.toProgramError, ProxyError.code] at h
                case pos =>
                  simp [h1, hdec, h2, h3, h4, h5', h6, h7,
                    token_2022_helpers.update_multiplier] at h

/-- The `UpdateAuthority` returns `NotInitialized` only when the state data
decodes successfully to a record with `initialized = false`. -/
theorem pua_notinit_inversion
    (pid : Pubkey) (a s : AccountInfo) (rest : List AccountInfo) (na : Pubkey)
    (h : Processor.process_update_authority pid (a :: s :: rest) na =
      .error (ProxyError.toProgramError .NotInitialized)) :
    ∃ st, ProxyState.try_from_slice s.data = some st ∧ st.initialized = false := by
  unfold Processor.process_update_authority at h
  by_cases h1 : a.is_signer = true
  case neg =>
    simp only [Bool.not_eq_true] at h1
    simp [h1, ProxyError.toProgramError, ProxyError.code] at h
  case pos =>
    cases hdec : ProxyState.try_from_slice s.data with
    | none => simp [h1, hdec, ProxyError.toProgramError, ProxyError.code] at h
    | some st =>
      refine ⟨st, rfl, ?_⟩
      by_cases h2 : st.initialized = true
      case neg => simpa using h2
      case pos =>
        exfalso
        by_cases h3 : st.authority = a.key
        case neg =>
          simp [h1, hdec, h2, h3, ProxyError.toProgramError, ProxyError.code] at h
        case pos =>
          by_cases h4 : na = Pubkey.default
          case pos =>
            simp [h1, hdec, h2, h3, h4, ProxyError.toProgramError,
              ProxyError.code] at h
          case neg =>
            have hl : s.data.length = 66 := ProxyState.try_from_slice_length hdec
            have hdrop : s.data.drop 66 = [] := by rw [← hl, List.drop_length]
            simp [h1, hdec, h2, h3, h4, serializeInto,
              ProxyState.serialize_length, hl, hdrop,
              ProxyError.toProgramError, ProxyError.code] at h

/-! ### Claims -/

/-- C1: for every positive, finite, normal multiplier and every correctly
authorized, correctly addressed `UpdateMultiplier` request — i.e. for every
run of the handler that succeeds — the emitted delegated-call instruction
is addressed to the fixed Token-2022 program identity, carries exactly two
account references (the mint writable and not a signer; the signing PDA
read-only and required as a signer), and its data is exactly 18 bytes:
`[43, 1]` followed by the little-endian IEEE-754 encoding of the
multiplier followed by the little-endian two's-complement encoding of the
signed 64-bit timestamp. -/
theorem C1_update_multiplier_cpi_layout
    (fpa : DeriveFn) (pid : Pubkey) (a s apda tm tp : AccountInfo)
    (rest : List AccountInfo) (m : F64) (t : Int) (eff : UpdateMultiplierEffects)
    (h : Processor.process_update_multiplier fpa pid
        (a :: s :: apda :: tm :: tp :: rest) m t = .ok eff) :
    (m.is_sign_positive && m.is_normal) = true ∧
    eff.cpi.program_id = TOKEN_2022_PROGRAM_ID ∧
    eff.cpi.accounts =
      [{ pubkey := tm.key, is_signer := false, is_writable := true },
       { pubkey := apda.key, is_signer := true, is_writable := false }] ∧
    eff.cpi.data = [43, 1] ++ m.to_le_bytes ++ i64ToLeBytes t ∧
    eff.cpi.data.length = 18 := by
  rw [process_update_multiplier_ok_iff] at h
  obtain ⟨h1, st, hdec, h2, h3, h4, h5, h6, h7, heff⟩ := h
  subst heff
  refine ⟨h5, rfl, rfl, rfl, ?_⟩
  simp [F64.to_le_bytes, i64ToLeBytes, leBytes, TokenInstruction.ScaledUiAmountExtension,
    ScaledUiAmountMintInstruction.UpdateMultiplier]

/-- C1 witness: the hypotheses of `C1_update_multiplier_cpi_layout` hold
on a concrete run. -/
theorem C1_witness :
    (f64One.is_sign_positive && f64One.is_normal) = true ∧
    updEffA.cpi.program_id = TOKEN_2022_PROGRAM_ID ∧
    updEffA.cpi.accounts =
      [{ pubkey := mAcc.key, is_signer := false, is_writable := true },
       { pubkey := pAcc.key, is_signer := true, is_writable := false }] ∧
    updEffA.cpi.data = [43, 1] ++ f64One.to_le_bytes ++ i64ToLeBytes 1700000000 ∧
    updEffA.cpi.data.length = 18 :=
  C1_update_multiplier_cpi_layout testDerive testProgramId aAccA sAccA pAcc
    mAcc tAcc [] f64One 1700000000 updEffA (by decide)

/-- C2: the multiplier validation accepts a value if and only if it is
finite, strictly positive (positive sign and non-zero) and non-subnormal
— equivalently, a positive normal double, which includes every normal
value in `(0, 1.0]` despite the interface comment saying "must be > 1.0"
— every rejected value yields `InvalidMultiplier`, and under the earlier
preconditions a rejected value makes the whole `UpdateMultiplier` fail
with `InvalidMultiplier`, so no delegated call is issued. -/
theorem C2_multiplier_validation (m : F64) :
    (try_validate_multiplier m = .ok () ↔
      (m.isFinite = true ∧ m.is_sign_positive = true ∧
        m.isZero = false ∧ m.isSubnormal = false)) ∧
    (try_validate_multiplier m ≠ .ok () →
      try_validate_multiplier m =
        .error (ProxyError.toProgramError .InvalidMultiplier)) ∧
    (∀ (fpa : DeriveFn) (pid : Pubkey) (a s apda tm tp : AccountInfo)
        (rest : List AccountInfo) (t : Int) (st : ProxyState),
      a.is_signer = true →
      ProxyState.try_from_slice s.data = some st →
      st.initialized = true → st.authority = a.key → st.token_mint = tm.key →
      (m.is_sign_positive && m.is_normal) = false →
      Processor.process_update_multiplier fpa pid
          (a :: s :: apda :: tm :: tp :: rest) m t =
        .error (ProxyError.toProgramError .InvalidMultiplier)) := by
  refine ⟨?_, ?_, ?_⟩
  · rw [try_validate_multiplier_ok_iff]
    exact sign_positive_normal_iff m
  · intro hne
    cases hv : (m.is_sign_positive && m.is_normal) with
    | false => exact try_validate_multiplier_rejects m hv
    | true => exact absurd ((try_validate_multiplier_ok_iff m).2 hv) hne
  · intro fpa pid a s apda tm tp rest t st h1 hdec h2 h3 h4 h5
    exact pum_err_multiplier fpa pid a s apda tm tp rest m t st h1 hdec h2 h3 h4 h5

/-- C2 witness: 0.5 (a normal value in `(0, 1.0]`) is accepted, and a
concrete, otherwise fully valid `UpdateMultiplier` with multiplier 0.0
fails with `InvalidMultiplier`. -/
theorem C2_witness :
    try_validate_multiplier f64Half = .ok () ∧
    Processor.process_update_multiplier testDerive testProgramId
        [aAccA, sAccA, pAcc, mAcc, tAcc] f64Zero 1700000000 =
      .error (ProxyError.toProgramError .InvalidMultiplier) :=
  ⟨(C2_multiplier_validation f64Half).1.2 ⟨by decide, by decide, by decide, by decide⟩,
   (C2_multiplier_validation f64Zero).2.2 testDerive testProgramId aAccA sAccA
     pAcc mAcc tAcc [] 1700000000 stA (by decide) (by decide) (by decide)
     (by decide) (by decide) (by decide)⟩

/-- C5: `UpdateMultiplier` checks its preconditions in exactly the stated
order, the first failing one determining the error: signer
(`MissingRequiredSignature`), state decodes with `initialized` true
(`NotInitialized`), stored authority equals the requester
(`InvalidAuthority`), stored mint equals the supplied mint
(`InvalidMint`), multiplier validity (`InvalidMultiplier`), and re-derived
signing address and bump equal the supplied ones (`InvalidPDA`). -/
theorem C5_update_multiplier_check_order
    (fpa : DeriveFn) (pid : Pubkey) (a s apda tm tp : AccountInfo)
    (rest : List AccountInfo) (m : F64) (t : Int) :
    (a.is_signer = false →
      Processor.process_update_multiplier fpa pid
          (a :: s :: apda :: tm :: tp :: rest) m t =
        .error .MissingRequiredSignature) ∧
    (∀ st, a.is_signer = true →
      ProxyState.try_from_slice s.data = some st → st.initialized = false →
      Processor.process_update_multiplier fpa pid
          (a :: s :: apda :: tm :: tp :: rest) m t =
        .error (ProxyError.toProgramError .NotInitialized)) ∧
    (∀ st, a.is_signer = true →
      ProxyState.try_from_slice s.data = some st → st.initialized = true →
      st.authority ≠ a.key →
      Processor.process_update_multiplier fpa pid
          (a :: s :: apda :: tm :: tp :: rest) m t =
        .error (ProxyError.toProgramError .InvalidAuthority)) ∧
    (∀ st, a.is_signer = true →
      ProxyState.try_from_slice s.data = some st → st.initialized = true →
      st.authority = a.key → st.token_mint ≠ tm.key →
      Processor.process_update_multiplier fpa pid
          (a :: s :: apda :: tm :: tp :: rest) m t =
        .error (ProxyError.toProgramError .InvalidMint)) ∧
    (∀ st, a.is_signer = true →
      ProxyState.try_from_slice s.data = some st → st.initialized = true →
      st.authority = a.key → st.token_mint = tm.key →
      (m.is_sign_positive && m.is_normal) = false →
      Processor.process_update_multiplier fpa pid
          (a :: s :: apda :: tm :: tp :: rest) m t =
        .error (ProxyError.toProgramError .InvalidMultiplier)) ∧
    (∀ st, a.is_signer = true →
      ProxyState.try_from_slice s.data = some st → st.initialized = true →
      st.authority = a.key → st.token_mint = tm.key →
      (m.is_sign_positive && m.is_normal) = true →
      ((fpa [ProxyState.AUTHORITY_SEED] pid).1 ≠ apda.key ∨
        (fpa [ProxyState.AUTHORITY_SEED] pid).2 ≠ st.bump) →
      Processor.process_update_multiplier fpa pid
          (a :: s :: apda :: tm :: tp :: rest) m t =
        .error (ProxyError.toProgramError .InvalidPDA)) := by
  refine ⟨?_, ?_, ?_, ?_, ?_, ?_⟩
  · intro h1
    exact pum_err_not_signer fpa pid a s apda tm tp rest m t h1
  · intro st h1 hdec h2
    exact pum_err_not_initialized fpa pid a s apda tm tp rest m t st h1 hdec h2
  · intro st h1 hdec h2 h3
    exact pum_err_authority fpa pid a s apda tm tp rest m t st h1 hdec h2 h3
  · intro st h1 hdec h2 h3 h4
    exact pum_err_mint fpa pid a s apda tm tp rest m t st h1 hdec h2 h3 h4
  · intro st h1 hdec h2 h3 h4 h5
    exact pum_err_multiplier fpa pid a s apda tm tp rest m t st h1 hdec h2 h3 h4 h5
  · intro st h1 hdec h2 h3 h4 h5 h6
    exact pum_err_pda fpa pid a s apda tm tp rest m t st h1 hdec h2 h3 h4 h5 h6

/-- C5 witness: each precondition failure produces exactly the stated
error on a concrete input. -/
theorem C5_witness :
    Processor.process_update_multiplier testDerive testProgramId
        [aAccANoSig, sAccA, pAcc, mAcc, tAcc] f64One 0 =
      .error .MissingRequiredSignature ∧
    Processor.process_update_multiplier testDerive testProgramId
        [aAccA, sAccU, pAcc, mAcc, tAcc] f64One 0 =
      .error (ProxyError.toProgramError .NotInitialized) ∧
    Processor.process_update_multiplier testDerive testProgramId
        [aAccB, sAccA, pAcc, mAcc, tAcc] f64One 0 =
      .error (ProxyError.toProgramError .InvalidAuthority) ∧
    Processor.process_update_multiplier testDerive testProgramId
        [aAccA, sAccA, pAcc, mAccBad, tAcc] f64One 0 =
      .error (ProxyError.toProgramError .InvalidMint) ∧
    Processor.process_update_multiplier testDerive testProgramId
        [aAccA, sAccA, pAcc, mAcc, tAcc] f64NegOne 0 =
      .error (ProxyError.toProgramError .InvalidMultiplier) ∧
    Processor.process_update_multiplier testDerive testProgramId
        [aAccA, sAccA, pAccBad, mAcc, tAcc] f64One 0 =
      .error (ProxyError.toProgramError .InvalidPDA) :=
  ⟨(C5_update_multiplier_check_order testDerive testProgramId aAccANoSig sAccA
      pAcc mAcc tAcc [] f64One 0).1 (by decide),
   (C5_update_multiplier_check_order testDerive testProgramId aAccA sAccU
      pAcc mAcc tAcc [] f64One 0).2.1 stU (by decide) (by decide) (by decide),
   (C5_update_multiplier_check_order testDerive testProgramId aAccB sAccA
      pAcc mAcc tAcc [] f64One 0).2.2.1 stA (by decide) (by decide) (by decide)
      (by decide),
   (C5_update_multiplier_check_order testDerive testProgramId aAccA sAccA
      pAcc mAccBad tAcc [] f64One 0).2.2.2.1 stA (by decide) (by decide)
      (by decide) (by decide) (by decide),
   (C5_update_multiplier_check_order testDerive testProgramId aAccA sAccA
      pAcc mAcc tAcc [] f64NegOne 0).2.2.2.2.1 stA (by decide) (by decide)
      (by decide) (by decide) (by decide) (by decide),
   (C5_update_multiplier_check_order testDerive testProgramId aAccA sAccA
      pAccBad mAcc tAcc [] f64One 0).2.2.2.2.2 stA (by decide) (by decide)
      (by decide) (by decide) (by decide) (by decide) (by decide)⟩

/-- C6: `Initialize` fails with `AlreadyInitialized` whenever the state
account's data decodes with `initialized = true` (decodable data is
necessarily non-empty); otherwise, with a verified funding signer and
matching derived addresses, a successful run requests creation of the
state account sized exactly `LEN = 66` bytes owned by this program,
funded by the supplied minimum balance for that size, and writes an
`AuthorityState` with `initialized = true`, the supplied authority, the
supplied mint identity, and the derived authority bump. -/
theorem C6_initialize_guard_and_effect
    (fpa : DeriveFn) (rentMin : Nat → Nat) (pid : Pubkey)
    (payer s apda mint sys : AccountInfo) (rest : List AccountInfo)
    (authority : Pubkey) :
    (∀ st, payer.is_signer = true →
      (fpa [ProxyState.STATE_SEED] pid).1 = s.key →
      (fpa [ProxyState.AUTHORITY_SEED] pid).1 = apda.key →
      ProxyState.try_from_slice s.data = some st → st.initialized = true →
      Processor.process_initialize fpa rentMin pid
          (payer :: s :: apda :: mint :: sys :: rest) authority =
        .error (ProxyError.toProgramError .AlreadyInitialized)) ∧
    (∀ eff, Processor.process_initialize fpa rentMin pid
        (payer :: s :: apda :: mint :: sys :: rest) authority = .ok eff →
      eff.create_ix = { from_pubkey := payer.key
                        to_pubkey := s.key
                        lamports := rentMin ProxyState.LEN
                        space := ProxyState.LEN
                        owner := pid } ∧
      ProxyState.LEN = 66 ∧
      eff.new_data.length = ProxyState.LEN ∧
      ProxyState.try_from_slice eff.new_data =
        some { initialized := true
               authority := authority
               token_mint := mint.key
               bump := (fpa [ProxyState.AUTHORITY_SEED] pid).2 }) := by
  constructor
  · intro st h1 hk1 hk2 hdec hinit
    exact pinit_err_already fpa rentMin pid payer s apda mint sys rest
      authority st h1 hk1 hk2 hdec hinit
  · intro eff hok
    rw [process_initialize_ok_iff] at hok
    obtain ⟨-, -, -, -, heff⟩ := hok
    subst heff
    refine ⟨rfl, rfl, ?_, ?_⟩
    · exact ProxyState.serialize_length _
    · exact ProxyState.try_from_slice_serialize _

/-- C6 witness: on concrete accounts, a second `Initialize` against the
already-initialized state fails with `AlreadyInitialized`, and the
concrete successful run creates a 66-byte account owned by the program
and writes the expected state. -/
theorem C6_witness :
    Processor.process_initialize testDerive testRentMin testProgramId
        [payerAcc, sAccA, pAcc, mAcc, sysAcc] authB =
      .error (ProxyError.toProgramError .AlreadyInitialized) ∧
    (initEffA.create_ix = { from_pubkey := payerAcc.key
                            to_pubkey := sAccEmpty.key
                            lamports := testRentMin ProxyState.LEN
                            space := ProxyState.LEN
                            owner := testProgramId } ∧
      ProxyState.LEN = 66 ∧
      initEffA.new_data.length = ProxyState.LEN ∧
      ProxyState.try_from_slice initEffA.new_data =
        some { initialized := true
               authority := authA
               token_mint := mAcc.key
               bump := (testDerive [ProxyState.AUTHORITY_SEED] testProgramId).2 }) :=
  ⟨(C6_initialize_guard_and_effect testDerive testRentMin testProgramId
      payerAcc sAccA pAcc mAcc sysAcc [] authB).1 stA (by decide) (by decide)
      (by decide) (by decide) (by decide),
   (C6_initialize_guard_and_effect testDerive testRentMin testProgramId
      payerAcc sAccEmpty pAcc mAcc sysAcc [] authA).2 initEffA (by decide)⟩

/-- C7: `UpdateAuthority` to the all-zero identity never succeeds, and
under a verified signer equal to the stored authority of an initialized
state it fails with exactly `InvalidAuthority`; with any non-zero new
authority under the same preconditions it succeeds, rewrites the record
in place with only the authority replaced (same 66-byte size as the
input), and the rewritten bytes immediately decode to the updated
state. -/
theorem C7_update_authority_zero_vs_nonzero
    (pid : Pubkey) (a s : AccountInfo) (rest : List AccountInfo)
    (na : Pubkey) (st : ProxyState) :
    (∀ accounts d, Processor.process_update_authority pid accounts
        Pubkey.default ≠ .ok d) ∧
    (a.is_signer = true → ProxyState.try_from_slice s.data = some st →
      st.initialized = true → st.authority = a.key →
      Processor.process_update_authority pid (a :: s :: rest) Pubkey.default =
        .error (ProxyError.toProgramError .InvalidAuthority)) ∧
    (a.is_signer = true → ProxyState.try_from_slice s.data = some st →
      st.initialized = true → st.authority = a.key → na ≠ Pubkey.default →
      Processor.process_update_authority pid (a :: s :: rest) na =
        .ok (({ st with authority := na } : ProxyState).serialize) ∧
      ({ st with authority := na } : ProxyState).serialize.length = s.data.length ∧
      ProxyState.try_from_slice (({ st with authority := na } : ProxyState).serialize) =
        some { st with authority := na }) := by
  refine ⟨pua_default_never_ok pid, ?_, ?_⟩
  · intro h1 hdec h2 h3
    exact pua_err_zero_authority pid a s rest st h1 hdec h2 h3
  · intro h1 hdec h2 h3 hna
    refine ⟨?_, ?_, ProxyState.try_from_slice_serialize _⟩
    · exact (process_update_authority_ok_iff pid a s rest na _).2
        ⟨h1, st, hdec, h2, h3, hna, rfl⟩
    · rw [ProxyState.serialize_length, ProxyState.try_from_slice_length hdec]

/-- C7 witness: on concrete accounts the zero identity is rejected with
`InvalidAuthority` and a non-zero identity succeeds, with the update
immediately visible to a subsequent decode. -/
theorem C7_witness :
    Processor.process_update_authority testProgramId [aAccA, sAccA]
        Pubkey.default =
      .error (ProxyError.toProgramError .InvalidAuthority) ∧
    (Processor.process_update_authority testProgramId [aAccA, sAccA] authB =
        .ok (({ stA with authority := authB } : ProxyState).serialize) ∧
      ({ stA with authority := authB } : ProxyState).serialize.length =
        sAccA.data.length ∧
      ProxyState.try_from_slice
          (({ stA with authority := authB } : ProxyState).serialize) =
        some { stA with authority := authB }) :=
  ⟨(C7_update_authority_zero_vs_nonzero testProgramId aAccA sAccA [] authB
      stA).2.1 (by decide) (by decide) (by decide) (by decide),
   (C7_update_authority_zero_vs_nonzero testProgramId aAccA sAccA [] authB
      stA).2.2 (by decide) (by decide) (by decide) (by decide) (by decide)⟩

/-- C8: a successful `UpdateMultiplier` performs no local state mutation
(the state-account data after the handler equals the input data), and a
successful `UpdateAuthority` changes only the authority field: the
rewritten record decodes with `initialized`, `token_mint` and `bump`
unchanged and `authority` equal to the new authority. -/
theorem C8_frame_effects
    (fpa : DeriveFn) (pid : Pubkey) (a s apda tm tp : AccountInfo)
    (rest : List AccountInfo) (m : F64) (t : Int)
    (eff : UpdateMultiplierEffects)
    (a2 s2 : AccountInfo) (rest2 : List AccountInfo) (na : Pubkey)
    (d : List Nat) (st2 : ProxyState) :
    (Processor.process_update_multiplier fpa pid
        (a :: s :: apda :: tm :: tp :: rest) m t = .ok eff →
      eff.final_state_data = s.data) ∧
    (ProxyState.try_from_slice s2.data = some st2 →
      Processor.process_update_authority pid (a2 :: s2 :: rest2) na = .ok d →
      ∃ st', ProxyState.try_from_slice d = some st' ∧
        st'.initialized = st2.initialized ∧
        st'.token_mint = st2.token_mint ∧
        st'.bump = st2.bump ∧
        st'.authority = na) := by
  constructor
  · intro hok
    rw [process_update_multiplier_ok_iff] at hok
    obtain ⟨-, stq, -, -, -, -, -, -, -, heff⟩ := hok
    subst heff
    rfl
  · intro hdec hok
    rw [process_update_authority_ok_iff] at hok
    obtain ⟨-, stq, hdecq, -, -, -, hd⟩ := hok
    rw [hdec] at hdecq
    cases Option.some.inj hdecq
    subst hd
    exact ⟨{ st2 with authority := na },
      ProxyState.try_from_slice_serialize _, rfl, rfl, rfl, rfl⟩

/-- C8 witness: the frame facts hold on concrete successful runs of both
handlers. -/
theorem C8_witness :
    updEffA.final_state_data = sAccA.data ∧
    (∃ st', ProxyState.try_from_slice
        (({ stA with authority := authB } : ProxyState).serialize) = some st' ∧
      st'.initialized = stA.initialized ∧
      st'.token_mint = stA.token_mint ∧
      st'.bump = stA.bump ∧
      st'.authority = authB) :=
  ⟨(C8_frame_effects testDerive testProgramId aAccA sAccA pAcc mAcc tAcc []
      f64One 1700000000 updEffA aAccA sAccA [] authB
      (({ stA with authority := authB } : ProxyState).serialize) stA).1
      (by decide),
   (C8_frame_effects testDerive testProgramId aAccA sAccA pAcc mAcc tAcc []
      f64One 1700000000 updEffA aAccA sAccA [] authB
      (({ stA with authority := authB } : ProxyState).serialize) stA).2
      (by decide) (by decide)⟩

/-- C10: for `UpdateMultiplier` and `UpdateAuthority`, zero-length (or
otherwise undecodable) state data yields the generic borsh
deserialization error — which is distinct from `NotInitialized` — and
`NotInitialized` arises only when the buffer decodes successfully to a
record whose `initialized` flag is false. -/
theorem C10_decode_failure_vs_not_initialized
    (fpa : DeriveFn) (pid : Pubkey) (a s apda tm tp : AccountInfo)
    (rest rest2 : List AccountInfo) (m : F64) (t : Int) (na : Pubkey) :
    ProgramError.BorshIoError ≠ ProxyError.toProgramError .NotInitialized ∧
    (a.is_signer = true → ProxyState.try_from_slice s.data = none →
      Processor.process_update_multiplier fpa pid
          (a :: s :: apda :: tm :: tp :: rest) m t = .error .BorshIoError) ∧
    (a.is_signer = true → s.data = [] →
      Processor.process_update_multiplier fpa pid
          (a :: s :: apda :: tm :: tp :: rest) m t = .error .BorshIoError) ∧
    (Processor.process_update_multiplier fpa pid
        (a :: s :: apda :: tm :: tp :: rest) m t =
        .error (ProxyError.toProgramError .NotInitialized) →
      ∃ st, ProxyState.try_from_slice s.data = some st ∧
        st.initialized = false) ∧
    (a.is_signer = true → ProxyState.try_from_slice s.data = none →
      Processor.process_update_authority pid (a :: s :: rest2) na =
        .error .BorshIoError) ∧
    (a.is_signer = true → s.data = [] →
      Processor.process_update_authority pid (a :: s :: rest2) na =
        .error .BorshIoError) ∧
    (Processor.process_update_authority pid (a :: s :: rest2) na =
        .error (ProxyError.toProgramError .NotInitialized) →
      ∃ st, ProxyState.try_from_slice s.data = some st ∧
        st.initialized = false) := by
  refine ⟨by decide, ?_, ?_, ?_, ?_, ?_, ?_⟩
  · intro h1 hdec
    exact pum_err_decode fpa pid a s apda tm tp rest m t h1 hdec
  · intro h1 hnil
    exact pum_err_decode fpa pid a s apda tm tp rest m t h1
      (by rw [hnil]; rfl)
  · intro h
    exact pum_notinit_inversion fpa pid a s apda tm tp rest m t h
  · intro h1 hdec
    exact pua_err_decode pid a s rest2 na h1 hdec
  · intro h1 hnil
    exact pua_err_decode pid a s rest2 na h1 (by rw [hnil]; rfl)
  · intro h
    exact pua_notinit_inversion pid a s rest2 na h

/-- C10 witness: on a concrete zero-length state account both handlers
fail with the borsh deserialization error. -/
theorem C10_witness :
    Processor.process_update_multiplier testDerive testProgramId
        [aAccA, sAccEmpty, pAcc, mAcc, tAcc] f64One 0 =
      .error .BorshIoError ∧
    Processor.process_update_authority testProgramId [aAccA, sAccEmpty]
        authB = .error .BorshIoError :=
  ⟨(C10_decode_failure_vs_not_initialized testDerive testProgramId aAccA
      sAccEmpty pAcc mAcc tAcc [] [] f64One 0 authB).2.2.1 (by decide)
      (by decide),
   (C10_decode_failure_vs_not_initialized testDerive testProgramId aAccA
      sAccEmpty pAcc mAcc tAcc [] [] f64One 0 authB).2.2.2.2.2.1 (by decide)
      (by decide)⟩

/-- C3 counterexample: a state whose authority IS the zero identity is
reachable — `Initialize` accepts the zero identity as the supplied
authority and persists it — so "the authority field is never the
zero/default identity over all reachable states" is false. -/
theorem C3_counterexample :
    Reachable testDerive testRentMin testProgramId stZero ∧
    stZero.authority = Pubkey.default :=
  ⟨.init_step payerAcc sAccEmpty pAcc mAcc sysAcc [] Pubkey.default
      initEffZero stZero (by decide) (by decide),
   by decide⟩

/-- C3 amended: in every state reachable from an `Initialize` whose
supplied authority is non-zero, the authority field is never the
zero/default identity — `UpdateAuthority` rejects the zero identity and
`UpdateMultiplier` writes nothing — but `Initialize` itself does not
reject a zero supplied authority. -/
theorem C3_authority_nonzero_amended
    (fpa : DeriveFn) (rentMin : Nat → Nat) (pid : Pubkey) (st : ProxyState)
    (h : ReachableNonzeroInit fpa rentMin pid st) :
    st.authority ≠ Pubkey.default := by
  induction h with
  | init_step payer s apda mint sys rest authority eff st hnz hok hdec =>
    rw [process_initialize_ok_iff] at hok
    obtain ⟨-, -, -, -, heff⟩ := hok
    subst heff
    rw [ProxyState.try_from_slice_serialize] at hdec
    cases Option.some.inj hdec
    simpa using hnz
  | mult_step st a s apda tm tp rest m t eff hreach hdata hok ih => exact ih
  | auth_step st st' a s rest na d hreach hdata hok hdec ih =>
    rw [process_update_authority_ok_iff] at hok
    obtain ⟨-, stq, hdecq, -, -, hna, hd⟩ := hok
    subst hd
    rw [ProxyState.try_from_slice_serialize] at hdec
    cases Option.some.inj hdec
    simpa using hna

/-- C3 witness: the amended invariant applies to the concrete state
reached by a concrete `Initialize` with the non-zero authority `authA`. -/
theorem C3_witness : stA.authority ≠ Pubkey.default :=
  C3_authority_nonzero_amended testDerive testRentMin testProgramId stA
    (.init_step payerAcc sAccEmpty pAcc mAcc sysAcc [] authA initEffA stA
      (by decide) (by decide) (by decide))

/-- C4 counterexample: an `UpdateAuthority` request whose state-record
account sits at an address different from the derivation of `STATE_SEED`
does not fail with `InvalidStateAccount` — it succeeds, because
`UpdateAuthority` (like `UpdateMultiplier`) never re-derives or checks
the state-record address. -/
theorem C4_counterexample :
    (testDerive [ProxyState.STATE_SEED] testProgramId).1 ≠ sAccBadKey.key ∧
    Processor.process_update_authority testProgramId [aAccA, sAccBadKey]
        authB = .ok (({ stA with authority := authB } : ProxyState).serialize) := by
  constructor
  · decide
  · decide

/-- C4 amended: `Initialize` fails with `InvalidStateAccount` when the
supplied state-record address differs from its derivation and with
`InvalidPDA` when the supplied signing address differs from its
derivation; `UpdateMultiplier` fails with `InvalidPDA` when the supplied
signing address or the stored bump differs from the derivation; but
`UpdateMultiplier` and `UpdateAuthority` never check the state-record
address — their results depend on the state account only through its
data. -/
theorem C4_address_checks_amended
    (fpa : DeriveFn) (rentMin : Nat → Nat) (pid : Pubkey)
    (payer s apda mint sys : AccountInfo) (rest : List AccountInfo)
    (authority : Pubkey) (m : F64) (t : Int) (na : Pubkey)
    (s' : AccountInfo) :
    (payer.is_signer = true → (fpa [ProxyState.STATE_SEED] pid).1 ≠ s.key →
      Processor.process_initialize fpa rentMin pid
          (payer :: s :: apda :: mint :: sys :: rest) authority =
        .error (ProxyError.toProgramError .InvalidStateAccount)) ∧
    (payer.is_signer = true → (fpa [ProxyState.STATE_SEED] pid).1 = s.key →
      (fpa [ProxyState.AUTHORITY_SEED] pid).1 ≠ apda.key →
      Processor.process_initialize fpa rentMin pid
          (payer :: s :: apda :: mint :: sys :: rest) authority =
        .error (ProxyError.toProgramError .InvalidPDA)) ∧
    (∀ st, payer.is_signer = true →
      ProxyState.try_from_slice s.data = some st → st.initialized = true →
      st.authority = payer.key → st.token_mint = mint.key →
      (m.is_sign_positive && m.is_normal) = true →
      ((fpa [ProxyState.AUTHORITY_SEED] pid).1 ≠ apda.key ∨
        (fpa [ProxyState.AUTHORITY_SEED] pid).2 ≠ st.bump) →
      Processor.process_update_multiplier fpa pid
          (payer :: s :: apda :: mint :: sys :: rest) m t =
        .error (ProxyError.toProgramError .InvalidPDA)) ∧
    (s.data = s'.data →
      Processor.process_update_multiplier fpa pid
          (payer :: s :: apda :: mint :: sys :: rest) m t =
        Processor.process_update_multiplier fpa pid
          (payer :: s' :: apda :: mint :: sys :: rest) m t) ∧
    (s.data = s'.data →
      Processor.process_update_authority pid (payer :: s :: rest) na =
        Processor.process_update_authority pid (payer :: s' :: rest) na) := by
  refine ⟨?_, ?_, ?_, ?_, ?_⟩
  · intro h1 hk1
    exact pinit_err_state_key fpa rentMin pid payer s apda mint sys rest
      authority h1 hk1
  · intro h1 hk1 hk2
    exact pinit_err_pda_key fpa rentMin pid payer s apda mint sys rest
      authority h1 hk1 hk2
  · intro st h1 hdec h2 h3 h4 h5 h6
    exact pum_err_pda fpa pid payer s apda mint sys rest m t st h1 hdec h2
      h3 h4 h5 h6
  · intro hdata
    simp only [Processor.process_update_multiplier]
    rw [hdata]
  · intro hdata
    simp only [Processor.process_update_authority]
    rw [hdata]

/-- C4 witness: the address checks that do exist fire on concrete
mismatched inputs, and identical state data under a different
state-record address gives identical results. -/
theorem C4_witness :
    Processor.process_initialize testDerive testRentMin testProgramId
        [payerAcc, sAccBadKey, pAcc, mAcc, sysAcc] authA =
      .error (ProxyError.toProgramError .InvalidStateAccount) ∧
    Processor.process_initialize testDerive testRentMin testProgramId
        [payerAcc, sAccEmpty, pAccBad, mAcc, sysAcc] authA =
      .error (ProxyError.toProgramError .InvalidPDA) ∧
    Processor.process_update_authority testProgramId [aAccA, sAccA] authB =
      Processor.process_update_authority testProgramId [aAccA, sAccBadKey]
        authB :=
  ⟨(C4_address_checks_amended testDerive testRentMin testProgramId payerAcc
      sAccBadKey pAcc mAcc sysAcc [] authA f64One 0 authB sAccA).1
      (by decide) (by decide),
   (C4_address_checks_amended testDerive testRentMin testProgramId payerAcc
      sAccEmpty pAccBad mAcc sysAcc [] authA f64One 0 authB sAccA).2.1
      (by decide) (by decide) (by decide),
   (C4_address_checks_amended testDerive testRentMin testProgramId aAccA
      sAccA pAcc mAcc sysAcc [] authA f64One 0 authB sAccBadKey).2.2.2.2
      (by decide)⟩

/-- C9 counterexample: the seed for the program-owned signing address is
the bytes of `"proxy_authority"`, not of `"authority"` as claimed; a
concrete `Initialize` supplying the address derived from `"authority"`
as the signing address fails with `InvalidPDA`. -/
theorem C9_counterexample :
    ProxyState.AUTHORITY_SEED ≠ asciiBytes "authority" ∧
    ProxyState.AUTHORITY_SEED = asciiBytes "proxy_authority" ∧
    pAccClaimSeed.key = (testDerive [asciiBytes "authority"] testProgramId).1 ∧
    Processor.process_initialize testDerive testRentMin testProgramId
        [payerAcc, sAccEmpty, pAccClaimSeed, mAcc, sysAcc] authA =
      .error (ProxyError.toProgramError .InvalidPDA) := by
  refine ⟨by decide, by decide, by decide, by decide⟩

/-- C9 amended: the seed bytes are the fixed tag `"state"` for the
state-record address and the fixed tag `"proxy_authority"` (not
`"authority"`) for the program-owned signing address; the supplied
state-record address is checked against the derivation from `"state"`
and the supplied signing address against the derivation from
`"proxy_authority"`. -/
theorem C9_seed_tags_amended
    (fpa : DeriveFn) (rentMin : Nat → Nat) (pid : Pubkey)
    (payer s apda mint sys : AccountInfo) (rest : List AccountInfo)
    (authority : Pubkey) :
    ProxyState.STATE_SEED = asciiBytes "state" ∧
    ProxyState.AUTHORITY_SEED = asciiBytes "proxy_authority" ∧
    (payer.is_signer = true →
      (fpa [asciiBytes "state"] pid).1 ≠ s.key →
      Processor.process_initialize fpa rentMin pid
          (payer :: s :: apda :: mint :: sys :: rest) authority =
        .error (ProxyError.toProgramError .InvalidStateAccount)) ∧
    (payer.is_signer = true →
      (fpa [asciiBytes "state"] pid).1 = s.key →
      (fpa [asciiBytes "proxy_authority"] pid).1 ≠ apda.key →
      Processor.process_initialize fpa rentMin pid
          (payer :: s :: apda :: mint :: sys :: rest) authority =
        .error (ProxyError.toProgramError .InvalidPDA)) := by
  refine ⟨rfl, rfl, ?_, ?_⟩
  · intro h1 hk1
    exact pinit_err_state_key fpa rentMin pid payer s apda mint sys rest
      authority h1 hk1
  · intro h1 hk1 hk2
    exact pinit_err_pda_key fpa rentMin pid payer s apda mint sys rest
      authority h1 hk1 hk2

/-- C9 witness: the two address checks fire on concrete mismatched
addresses derived with the actual seed tags. -/
theorem C9_witness :
    Processor.process_initialize testDerive testRentMin testProgramId
        [payerAcc, ⟨pkOf 77, false, []⟩, pAcc, mAcc, sysAcc] authA =
      .error (ProxyError.toProgramError .InvalidStateAccount) ∧
    Processor.process_initialize testDerive testRentMin testProgramId
        [payerAcc, sAccEmpty, ⟨pkOf 78, false, []⟩, mAcc, sysAcc] authA =
      .error (ProxyError.toProgramError .InvalidPDA) :=
  ⟨(C9_seed_tags_amended testDerive testRentMin testProgramId payerAcc
      ⟨pkOf 77, false, []⟩ pAcc mAcc sysAcc [] authA).2.2.1 (by decide)
      (by decide),
   (C9_seed_tags_amended testDerive testRentMin testProgramId payerAcc
      sAccEmpty ⟨pkOf 78, false, []⟩ mAcc sysAcc [] authA).2.2.2 (by decide)
      (by decide) (by decide)⟩
